import Mathlib

/-!
Shallow embedding of the microgrid-energy-monitoring frontend.

Sources embedded here:
- src/frontend/src/store/authStore.js (login, logout, mockLogin, hasRole)
- src/frontend/src/components/Dashboard.js (fetchData, calculateTrend, getMetricStatus)
- the ComprehensiveDashboard WebSocket handler (connectWebSocket onmessage)
- the AlertsPage component (fetchAlerts normalization, filteredAndSortedAlerts)
- the AlertsPageSimple component (fetchAlerts normalization)

JavaScript numbers are modelled as rationals, absent/undefined values as
Option, and rejected promises as Except.
-/

/-- The user object held by the auth store.  The role field is an Option
because a backend-supplied user object may lack a role property
(undefined in JavaScript). -/
structure User where
  id : Nat
  username : String
  email : String
  role : Option String
  is_active : Bool
deriving DecidableEq, Repr

/-- The fields of the zustand auth store (authStore.js lines 7-11). -/
structure AuthState where
  user : Option User
  token : Option String
  isAuthenticated : Bool
  isLoading : Bool
  error : Option String
deriving DecidableEq, Repr

/-- Initial auth store state: user null, token null, not authenticated,
not loading, no error (authStore.js lines 7-11). -/
def initialAuthState : AuthState :=
  { user := none, token := none, isAuthenticated := false,
    isLoading := false, error := none }

/-- The payload of a successful login response: data.user and
data.access_token (authStore.js lines 29-37). -/
structure LoginData where
  user : User
  access_token : String
deriving DecidableEq, Repr

/-- authStore.js login (lines 13-47).  The network interaction is
abstracted into the response argument: Except.ok d is a 2xx response with
parsed JSON body d, Except.error msg is a thrown error (non-ok status or
network failure) carrying its message.  The function first sets
isLoading true and clears the error, then on success stores the user and
token and sets isAuthenticated, and on failure records the error message;
isLoading ends false either way. -/
def login (resp : Except String LoginData) (s : AuthState) : AuthState :=
  let s1 : AuthState := { s with isLoading := true, error := none }
  match resp with
  | Except.ok d =>
      { s1 with user := some d.user, token := some d.access_token,
                isAuthenticated := true, isLoading := false, error := none }
  | Except.error msg =>
      { s1 with isLoading := false, error := some msg }

/-- authStore.js logout (lines 49-56): sets user, token, isAuthenticated
and error; it does not touch isLoading. -/
def logout (s : AuthState) : AuthState :=
  { s with user := none, token := none, isAuthenticated := false,
           error := none }

/-- authStore.js clearError (lines 58-60). -/
def clearError (s : AuthState) : AuthState :=
  { s with error := none }

/-- authStore.js mockLogin (lines 63-79): builds the mock user for the
given role and stores it together with the mock token. -/
def mockLogin (role : String) (s : AuthState) : AuthState :=
  let mockUser : User :=
    { id := 1,
      username := if role = "admin" then "admin" else "operator",
      email := role ++ "@microgrid.com",
      role := some role,
      is_active := true }
  { s with user := some mockUser, token := some "mock-jwt-token",
           isAuthenticated := true, isLoading := false, error := none }

/-- The roleHierarchy object literal of hasRole (authStore.js lines
85-88): property lookup on the object, none for an absent key. -/
def roleHierarchy (r : String) : Option Nat :=
  if r = "operator" then some 1
  else if r = "admin" then some 2
  else none

/-- JavaScript relational comparison x >= y where either side may be
undefined: any comparison with undefined evaluates to false. -/
def jsGE : Option Nat → Option Nat → Bool
  | some a, some b => decide (b ≤ a)
  | _, _ => false

/-- authStore.js hasRole (lines 81-91): false when no user; otherwise
the JavaScript comparison roleHierarchy[user.role] >= roleHierarchy[required],
where a lookup of an undefined role or an unknown key yields undefined and
any comparison with undefined is false. -/
def hasRole (s : AuthState) (requiredRole : String) : Bool :=
  match s.user with
  | none => false
  | some u => jsGE (u.role.bind roleHierarchy) (roleHierarchy requiredRole)

/-- The Dashboard component state relevant to a fetch cycle
(Dashboard.js lines 25-32).  J is the type of JSON payloads stored from
responses. -/
structure DashState (J : Type) where
  sensorData : J
  latestData : J
  alerts : J
  systemStatus : J
  analytics : J
  loading : Bool
  error : Option String
  lastUpdate : Option Nat
deriving Repr

/-- The five concurrent requests of Dashboard.js fetchData (lines 39-51):
each either resolves with a payload or rejects with an error. -/
structure FetchResponses (J : Type) where
  sensor : Except String J
  latest : Except String J
  alerts : Except String J
  status : Except String J
  analytics : Except String J
deriving Repr

/-- The error message set by the catch branch of fetchData
(Dashboard.js line 62). -/
def connectionErrorMsg : String :=
  "Failed to fetch data. Please ensure the backend is running."

/-- Dashboard.js fetchData (lines 35-66).  setError(null) runs first;
Promise.all resolves only when all five requests resolve, in which case
the six setters run; if any request rejects the catch branch sets the
connection error message and no entity setter runs; the finally branch
clears loading either way.  now is the timestamp stored by
setLastUpdate(new Date()). -/
def fetchData {J : Type} (now : Nat) (r : FetchResponses J) (s : DashState J) :
    DashState J :=
  let s0 : DashState J := { s with error := none }
  match r.sensor, r.latest, r.alerts, r.status, r.analytics with
  | Except.ok sd, Except.ok ld, Except.ok al, Except.ok st, Except.ok an =>
      { s0 with sensorData := sd, latestData := ld, alerts := al,
                systemStatus := st, analytics := an,
                lastUpdate := some now, loading := false }
  | _, _, _, _, _ =>
      { s0 with error := some connectionErrorMsg, loading := false }

/-- Dashboard.js calculateTrend (lines 80-83).  previous is an Option
because the call sites pass previousData?.field, which may be undefined;
the JavaScript guard !previous || previous === 0 is true exactly for
undefined and 0 among these inputs. -/
def calculateTrend (current : ℚ) (previous : Option ℚ) : ℚ :=
  match previous with
  | none => 0
  | some p => if p = 0 then 0 else ((current - p) / p) * 100

/-- Dashboard.js getMetricStatus (lines 85-102): a switch on the metric
type with fixed numeric cut-points per metric. -/
def getMetricStatus (type : String) (value : ℚ) : String :=
  if type = "temperature" then
    if value > 100 then "critical"
    else if value > 80 then "warning"
    else "good"
  else if type = "soc" then
    if value < 15 then "critical"
    else if value < 30 then "warning"
    else "good"
  else if type = "voltage" then
    if value < 180 then "critical"
    else if value < 200 then "warning"
    else "good"
  else "normal"

/-- An incoming WebSocket message as seen by the onmessage handler of
connectWebSocket: either JSON.parse succeeds and yields an object whose
type field is the given string, or parsing throws. -/
inductive WsMessage where
  | parsed (type : String)
  | malformed
deriving DecidableEq, Repr

/-- The state-affecting effects an onmessage handler could emit: a call
of fetchData (one extra pull cycle) or a direct write to a component
state field from the message payload. -/
inductive WsEffect where
  | fetchDataCall
  | setStateDirect (field : String)
deriving DecidableEq, Repr

/-- The onmessage handler installed by connectWebSocket in the
ComprehensiveDashboard: when the parsed message's type is sensor_data or
alert it calls fetchData() once, otherwise it does nothing; a parse
failure is caught and logged.  The handler body contains no state setter,
so no setStateDirect effect is ever emitted. -/
def onmessage (m : WsMessage) : List WsEffect :=
  match m with
  | WsMessage.parsed t =>
      if t = "sensor_data" || t = "alert" then [WsEffect.fetchDataCall] else []
  | WsMessage.malformed => []

/-- An alert record as consumed by the alerts pages. -/
structure Alert where
  id : Nat
  message : String
  alert_type : String
  severity : String
  resolved : Bool
  timestamp : Int
deriving DecidableEq, Repr

/-- The body of an alerts response: either a JSON list of alerts or some
other JSON shape (object, string, ...), tagged for identification. -/
inductive AlertsPayload where
  | list (xs : List Alert)
  | malformed (tag : String)
deriving DecidableEq, Repr

/-- Array.isArray on an alerts payload. -/
def AlertsPayload.isArray : AlertsPayload → Bool
  | AlertsPayload.list _ => true
  | AlertsPayload.malformed _ => false

/-- The value stored by setAlerts in AlertsPageSimple.fetchAlerts:
setAlerts(Array.isArray(data) ? data : []). -/
def alertsPageSimpleStoredAlerts (data : AlertsPayload) : AlertsPayload :=
  if data.isArray then data else AlertsPayload.list []

/-- The value stored by setAlerts in AlertsPage.fetchAlerts:
const alertsData = response.data || response;
setAlerts(Array.isArray(alertsData) ? alertsData : []).
responseData is none when response.data is absent (undefined/null), in
which case the JavaScript || operator falls back to the response itself. -/
def alertsPageStoredAlerts (responseData : Option AlertsPayload)
    (response : AlertsPayload) : AlertsPayload :=
  let alertsData := responseData.getD response
  if alertsData.isArray then alertsData else AlertsPayload.list []

/-- The value stored by setAlerts in Dashboard.js fetchData (line 55):
setAlerts(alertsResponse.data), with no shape check. -/
def dashboardStoredAlerts (responseData : AlertsPayload) : AlertsPayload :=
  responseData

/-- JavaScript String.prototype.includes: substring containment. -/
def strIncludes (s pat : String) : Bool :=
  decide (pat.data <:+: s.data)

/-- The filter predicate of filteredAndSortedAlerts in AlertsPage
(lines 81-97): status filter first, then, when the search term is a
non-empty string, case-insensitive containment in message, alert_type or
severity. -/
def alertPassesFilter (filter searchTerm : String) (a : Alert) : Bool :=
  if filter = "active" && a.resolved then false
  else if filter = "resolved" && !a.resolved then false
  else if searchTerm ≠ "" then
    let searchLower := searchTerm.toLower
    strIncludes a.message.toLower searchLower ||
    strIncludes a.alert_type.toLower searchLower ||
    strIncludes a.severity.toLower searchLower
  else true

/-- The severityOrder object literal of the severity comparator
(AlertsPage line 105): lookup is none for an unknown severity. -/
def severityOrder (s : String) : Option Int :=
  if s = "critical" then some 4
  else if s = "high" then some 3
  else if s = "medium" then some 2
  else if s = "low" then some 1
  else none

/-- The numeric comparator of filteredAndSortedAlerts (lines 98-110).
Date subtraction is modelled on the integer timestamp.  An unknown
severity makes the JavaScript subtraction NaN, which only perturbs the
order; it is modelled as 0 here (order is irrelevant to the properties
proved below, which are stable under any permutation). -/
def alertCompare (sortBy : String) (a b : Alert) : Int :=
  if sortBy = "newest" then b.timestamp - a.timestamp
  else if sortBy = "oldest" then a.timestamp - b.timestamp
  else if sortBy = "severity" then
    (severityOrder b.severity).getD 0 - (severityOrder a.severity).getD 0
  else 0

/-- AlertsPage filteredAndSortedAlerts (lines 80-110): the stored alerts
(already an array there) filtered by status and search term, then sorted
by the selected comparator.  A sort is a permutation of its input for any
comparator. -/
def filteredAndSortedAlerts (alerts : List Alert)
    (filter searchTerm sortBy : String) : List Alert :=
  (alerts.filter (alertPassesFilter filter searchTerm)).mergeSort
    (fun a b => alertCompare sortBy a b ≤ 0)

theorem jsGE_iff (x y : Option Nat) :
    jsGE x y = true ↔ ∃ a b, x = some a ∧ y = some b ∧ b ≤ a := by
  cases x <;> cases y <;> simp [jsGE]

theorem jsGE_none_right (x : Option Nat) : jsGE x none = false := by
  cases x <;> rfl

theorem roleHierarchy_eq_some (r : String) (a : Nat) :
    roleHierarchy r = some a ↔ (r = "operator" ∧ a = 1) ∨ (r = "admin" ∧ a = 2) := by
  unfold roleHierarchy
  split_ifs <;> simp_all <;> omega

/-- C3: hasRole returns true exactly when a user is present and the rank
of the user's role in the hierarchy table is at least the rank of the
required role; hasRole "admin" holds exactly for admin users, hasRole
"operator" for operator and admin users, and hasRole is false with no
user or an undefined role. -/
theorem hasRole_rank_characterization (s : AuthState) (required : String) :
    (hasRole s required = true ↔
       ∃ u ra rb, s.user = some u ∧ u.role.bind roleHierarchy = some ra ∧
         roleHierarchy required = some rb ∧ rb ≤ ra) ∧
    (hasRole s "admin" = true ↔ ∃ u, s.user = some u ∧ u.role = some "admin") ∧
    (hasRole s "operator" = true ↔
       ∃ u, s.user = some u ∧ (u.role = some "operator" ∨ u.role = some "admin")) ∧
    (s.user = none → hasRole s required = false) ∧
    (∀ u, s.user = some u → u.role = none → hasRole s required = false) := by
  refine ⟨?_, ?_, ?_, ?_, ?_⟩
  · cases hs : s.user with
    | none => simp [hasRole, hs]
    | some u => simp [hasRole, hs, jsGE_iff]
  · cases hs : s.user with
    | none => simp [hasRole, hs]
    | some u =>
        simp only [hasRole, hs, jsGE_iff]
        constructor
        · rintro ⟨a, b, hab, hb, hba⟩
          cases hr : u.role with
          | none => simp [hr] at hab
          | some r =>
              rw [hr] at hab
              simp only [Option.some_bind] at hab
              rcases (roleHierarchy_eq_some r a).mp hab with ⟨hro, ha⟩ | ⟨hra, ha⟩
              · exfalso
                have hb2 : b = 2 := by
                  rcases (roleHierarchy_eq_some "admin" b).mp hb with ⟨h, _⟩ | ⟨_, h⟩
                  · exact absurd h (by decide)
                  · exact h
                omega
              · exact ⟨u, rfl, by rw [hr, hra]⟩
        · rintro ⟨u', hu', hrole⟩
          obtain rfl : u = u' := by simpa using hu'
          exact ⟨2, 2, by rw [hrole]; rfl, rfl, le_refl 2⟩
  · cases hs : s.user with
    | none => simp [hasRole, hs]
    | some u =>
        simp only [hasRole, hs, jsGE_iff]
        constructor
        · rintro ⟨a, b, hab, hb, hba⟩
          cases hr : u.role with
          | none => simp [hr] at hab
          | some r =>
              rw [hr] at hab
              simp only [Option.some_bind] at hab
              rcases (roleHierarchy_eq_some r a).mp hab with ⟨hro, ha⟩ | ⟨hra, ha⟩
              · exact ⟨u, rfl, Or.inl (by rw [hr, hro])⟩
              · exact ⟨u, rfl, Or.inr (by rw [hr, hra])⟩
        · rintro ⟨u', hu', hrole | hrole⟩ <;>
            obtain rfl : u = u' := by simpa using hu'
          · exact ⟨1, 1, by rw [hrole]; rfl, rfl, le_refl 1⟩
          · exact ⟨2, 1, by rw [hrole]; rfl, rfl, by omega⟩
  · intro h
    simp [hasRole, h]
  · intro u hu hrole
    simp [hasRole, hu, hrole, jsGE]

/-- C3 witness: concrete evaluation of the no-user branch. -/
theorem hasRole_rank_characterization_witness :
    initialAuthState.user = none ∧ hasRole initialAuthState "admin" = false :=
  ⟨rfl, (hasRole_rank_characterization initialAuthState "admin").2.2.2.1 rfl⟩

/-- C9: with a user present, hasRole of a required role outside the
hierarchy table returns false rather than failing: the lookup of the
unknown key yields none and the comparison against it is false. -/
theorem hasRole_unknown_required (s : AuthState) (u : User) (required : String)
    (hu : s.user = some u) (h1 : required ≠ "operator") (h2 : required ≠ "admin") :
    hasRole s required = false := by
  have hreq : roleHierarchy required = none := by
    unfold roleHierarchy
    split_ifs <;> simp_all
  simp only [hasRole, hu, hreq]
  exact jsGE_none_right _

/-- An operator user as built by mockLogin. -/
def operatorUser : User :=
  { id := 1, username := "operator", email := "operator@microgrid.com",
    role := some "operator", is_active := true }

/-- A session logged in as operator. -/
def operatorSession : AuthState :=
  { user := some operatorUser, token := some "mock-jwt-token",
    isAuthenticated := true, isLoading := false, error := none }

/-- C9 witness: an unknown required role on a live operator session. -/
theorem hasRole_unknown_required_witness :
    operatorSession.user = some operatorUser ∧
    ("guest" : String) ≠ "operator" ∧ ("guest" : String) ≠ "admin" ∧
    hasRole operatorSession "guest" = false :=
  ⟨rfl, by decide, by decide,
   hasRole_unknown_required operatorSession operatorUser "guest" rfl
     (by decide) (by decide)⟩

/-- C4: the metric classification bands.  Temperature: critical iff
v > 100, warning iff 80 < v <= 100, good iff v <= 80.  SOC: critical iff
v < 15, warning iff 15 <= v < 30, good iff v >= 30.  Voltage: critical
iff v < 180, warning iff 180 <= v < 200, good iff v >= 200. -/
theorem getMetricStatus_bands (v : ℚ) :
    (getMetricStatus "temperature" v = "critical" ↔ 100 < v) ∧
    (getMetricStatus "temperature" v = "warning" ↔ 80 < v ∧ v ≤ 100) ∧
    (getMetricStatus "temperature" v = "good" ↔ v ≤ 80) ∧
    (getMetricStatus "soc" v = "critical" ↔ v < 15) ∧
    (getMetricStatus "soc" v = "warning" ↔ 15 ≤ v ∧ v < 30) ∧
    (getMetricStatus "soc" v = "good" ↔ 30 ≤ v) ∧
    (getMetricStatus "voltage" v = "critical" ↔ v < 180) ∧
    (getMetricStatus "voltage" v = "warning" ↔ 180 ≤ v ∧ v < 200) ∧
    (getMetricStatus "voltage" v = "good" ↔ 200 ≤ v) := by
  unfold getMetricStatus
  norm_num
  refine ⟨?_, ?_, ?_, ?_, ?_, ?_, ?_, ?_, ?_⟩ <;>
    split_ifs <;> simp_all <;> linarith

/-- C8: calculateTrend returns 0 when the previous value is absent or
zero, and otherwise the percentage change formula; the division happens
only under the nonzero guard, so the function is total. -/
theorem calculateTrend_total (current : ℚ) :
    calculateTrend current none = 0 ∧
    calculateTrend current (some 0) = 0 ∧
    ∀ p : ℚ, p ≠ 0 → calculateTrend current (some p) = ((current - p) / p) * 100 := by
  refine ⟨rfl, by simp [calculateTrend], fun p hp => by simp [calculateTrend, hp]⟩

/-- C8 witness: a concrete nonzero previous value. -/
theorem calculateTrend_total_witness :
    (2 : ℚ) ≠ 0 ∧ calculateTrend 3 (some 2) = ((3 - 2) / 2) * 100 :=
  ⟨by norm_num, (calculateTrend_total 3).2.2 2 (by norm_num)⟩

/-- The auth state during a pending login: the login thunk begins by
setting isLoading true (authStore.js line 14). -/
def pendingLoginState : AuthState :=
  { user := none, token := none, isAuthenticated := false,
    isLoading := true, error := none }

/-- C6 counterexample: logout does not reset isLoading, so a state whose
isLoading is true keeps it true across logout, while the initial value of
isLoading is false. -/
theorem logout_retains_isLoading :
    (logout pendingLoginState).isLoading = true ∧
    initialAuthState.isLoading = false :=
  ⟨rfl, rfl⟩

/-- C6 amended: logout synchronously clears user, token, isAuthenticated
and error, and leaves isLoading at its pre-logout value. -/
theorem logout_clears_session_except_isLoading (s : AuthState) :
    logout s = { user := none, token := none, isAuthenticated := false,
                 isLoading := s.isLoading, error := none } :=
  rfl

/-- C7: for a fixed successful login response, login then logout then
login again produces exactly the state of the first login; likewise for
mockLogin with a fixed role.  A successful login overwrites every field
of the store, so the flow is idempotent for the same input. -/
theorem login_roundtrip_idempotent :
    (∀ (d : LoginData) (s : AuthState),
        login (Except.ok d) (logout (login (Except.ok d) s)) =
          login (Except.ok d) s) ∧
    (∀ (role : String) (s : AuthState),
        mockLogin role (logout (mockLogin role s)) = mockLogin role s) :=
  ⟨fun _ _ => rfl, fun _ _ => rfl⟩

/-- C1: the fetch cycle is all-or-nothing.  If all five requests resolve,
every entity plus lastUpdate is stored and the error is clear; if any
request rejects, the state keeps every entity and lastUpdate unchanged
and only records the connection error (and loading false). -/
theorem fetchData_all_or_nothing {J : Type} (now : Nat) (r : FetchResponses J)
    (s : DashState J) :
    (∀ sd ld al st an,
        r.sensor = Except.ok sd → r.latest = Except.ok ld →
        r.alerts = Except.ok al → r.status = Except.ok st →
        r.analytics = Except.ok an →
        fetchData now r s =
          { sensorData := sd, latestData := ld, alerts := al,
            systemStatus := st, analytics := an, loading := false,
            error := none, lastUpdate := some now }) ∧
    ((r.sensor.isOk && r.latest.isOk && r.alerts.isOk && r.status.isOk &&
        r.analytics.isOk) = false →
      fetchData now r s =
        { s with error := some connectionErrorMsg, loading := false }) := by
  obtain ⟨a, b, c, d, e⟩ := r
  constructor
  · intro sd ld al st an h1 h2 h3 h4 h5
    simp only at h1 h2 h3 h4 h5
    subst h1; subst h2; subst h3; subst h4; subst h5
    rfl
  · intro h
    cases a <;> cases b <;> cases c <;> cases d <;> cases e <;>
      simp_all [fetchData, Except.isOk, Except.toBool]

/-- A dashboard state with some pre-cycle entity values. -/
def sampleDashState : DashState Nat :=
  { sensorData := 10, latestData := 11, alerts := 12, systemStatus := 13,
    analytics := 14, loading := true, error := none, lastUpdate := some 1 }

/-- Five responses that all resolve. -/
def sampleOkResponses : FetchResponses Nat :=
  { sensor := Except.ok 1, latest := Except.ok 2, alerts := Except.ok 3,
    status := Except.ok 4, analytics := Except.ok 5 }

/-- Five responses of which the alerts request rejects. -/
def sampleFailedResponses : FetchResponses Nat :=
  { sensor := Except.ok 1, latest := Except.ok 2,
    alerts := Except.error "Network Error",
    status := Except.ok 4, analytics := Except.ok 5 }

/-- C1 witness: both branches evaluated on concrete cycles. -/
theorem fetchData_all_or_nothing_witness :
    (fetchData 7 sampleOkResponses sampleDashState =
      { sensorData := 1, latestData := 2, alerts := 3, systemStatus := 4,
        analytics := 5, loading := false, error := none,
        lastUpdate := some 7 }) ∧
    (fetchData 7 sampleFailedResponses sampleDashState =
      { sampleDashState with error := some connectionErrorMsg,
                             loading := false }) :=
  ⟨(fetchData_all_or_nothing 7 sampleOkResponses sampleDashState).1
      1 2 3 4 5 rfl rfl rfl rfl rfl,
   (fetchData_all_or_nothing 7 sampleFailedResponses sampleDashState).2 rfl⟩

/-- C2: a pushed message of type sensor_data or alert triggers exactly
one fetchData call; any other message (other type, or unparseable)
triggers none; no handler run ever writes component state directly from
the message payload. -/
theorem onmessage_signal_only (m : WsMessage) :
    ((m = WsMessage.parsed "sensor_data" ∨ m = WsMessage.parsed "alert") →
        onmessage m = [WsEffect.fetchDataCall]) ∧
    ((∀ t, m = WsMessage.parsed t → t ≠ "sensor_data" ∧ t ≠ "alert") →
        onmessage m = []) ∧
    (∀ f, WsEffect.setStateDirect f ∉ onmessage m) := by
  refine ⟨?_, ?_, ?_⟩
  · rintro (rfl | rfl) <;> rfl
  · intro h
    cases m with
    | parsed t =>
        obtain ⟨h1, h2⟩ := h t rfl
        simp [onmessage, h1, h2]
    | malformed => rfl
  · intro f
    cases m with
    | parsed t =>
        by_cases h : (t = "sensor_data" || t = "alert") = true <;>
          simp [onmessage, h]
    | malformed => simp [onmessage]

/-- C2 witness: an alert message triggers the single refetch, a
system_status message triggers nothing. -/
theorem onmessage_signal_only_witness :
    (WsMessage.parsed "alert" = WsMessage.parsed "sensor_data" ∨
      WsMessage.parsed "alert" = WsMessage.parsed "alert") ∧
    onmessage (WsMessage.parsed "alert") = [WsEffect.fetchDataCall] ∧
    onmessage (WsMessage.parsed "system_status") = [] :=
  ⟨Or.inr rfl,
   (onmessage_signal_only (WsMessage.parsed "alert")).1 (Or.inr rfl),
   (onmessage_signal_only (WsMessage.parsed "system_status")).2.1
     (by intro t ht
         injection ht with h
         subst h
         exact ⟨by decide, by decide⟩)⟩

/-- C5 counterexample: the Dashboard fetch site stores the alerts
response body unmodified, so a non-list payload reaches state there
without being coerced to the empty list. -/
theorem dashboard_stores_nonarray_alerts :
    dashboardStoredAlerts (AlertsPayload.malformed "object") =
      AlertsPayload.malformed "object" ∧
    (AlertsPayload.malformed "object").isArray = false :=
  ⟨rfl, rfl⟩

/-- C5 amended: the AlertsPageSimple and AlertsPage fetch sites always
store an array (coercing a non-list payload to the empty list), while
the Dashboard fetch site stores the response body unchanged. -/
theorem alerts_normalization_per_site :
    (∀ d, (alertsPageSimpleStoredAlerts d).isArray = true) ∧
    (∀ rd r, (alertsPageStoredAlerts rd r).isArray = true) ∧
    (∀ d, dashboardStoredAlerts d = d) := by
  refine ⟨?_, ?_, fun d => rfl⟩
  · intro d
    cases d <;> rfl
  · intro rd r
    cases rd with
    | none => cases r <;> rfl
    | some d => cases d <;> rfl

theorem mem_filteredAndSortedAlerts {alerts : List Alert}
    {filter searchTerm sortBy : String} {a : Alert}
    (h : a ∈ filteredAndSortedAlerts alerts filter searchTerm sortBy) :
    a ∈ alerts ∧ alertPassesFilter filter searchTerm a = true := by
  unfold filteredAndSortedAlerts at h
  rw [List.mem_mergeSort] at h
  exact ⟨List.mem_of_mem_filter h, List.of_mem_filter h⟩

theorem alertPassesFilter_active {searchTerm : String} {a : Alert}
    (h : alertPassesFilter "active" searchTerm a = true) :
    a.resolved = false := by
  cases hr : a.resolved with
  | true => simp [alertPassesFilter, hr] at h
  | false => rfl

theorem alertPassesFilter_resolved {searchTerm : String} {a : Alert}
    (h : alertPassesFilter "resolved" searchTerm a = true) :
    a.resolved = true := by
  cases hr : a.resolved with
  | true => rfl
  | false => simp [alertPassesFilter, hr] at h

theorem alertPassesFilter_search {filter searchTerm : String} {a : Alert}
    (hs : searchTerm ≠ "") (h : alertPassesFilter filter searchTerm a = true) :
    strIncludes a.message.toLower searchTerm.toLower = true ∨
    strIncludes a.alert_type.toLower searchTerm.toLower = true ∨
    strIncludes a.severity.toLower searchTerm.toLower = true := by
  unfold alertPassesFilter at h
  split_ifs at h <;> simp only [Bool.or_eq_true] at h <;> tauto

/-- C10: the displayed alert list is drawn from the fetched alerts; the
active filter shows only unresolved alerts, the resolved filter only
resolved ones, and a non-empty search term restricts the display to
alerts whose message, alert_type or severity contains the term
case-insensitively. -/
theorem filteredAndSortedAlerts_sound (alerts : List Alert)
    (filter searchTerm sortBy : String) :
    (∀ a ∈ filteredAndSortedAlerts alerts filter searchTerm sortBy,
        a ∈ alerts) ∧
    (filter = "active" →
      ∀ a ∈ filteredAndSortedAlerts alerts filter searchTerm sortBy,
        a.resolved = false) ∧
    (filter = "resolved" →
      ∀ a ∈ filteredAndSortedAlerts alerts filter searchTerm sortBy,
        a.resolved = true) ∧
    (searchTerm ≠ "" →
      ∀ a ∈ filteredAndSortedAlerts alerts filter searchTerm sortBy,
        strIncludes a.message.toLower searchTerm.toLower = true ∨
        strIncludes a.alert_type.toLower searchTerm.toLower = true ∨
        strIncludes a.severity.toLower searchTerm.toLower = true) := by
  refine ⟨?_, ?_, ?_, ?_⟩
  · intro a ha
    exact (mem_filteredAndSortedAlerts ha).1
  · rintro rfl a ha
    exact alertPassesFilter_active (mem_filteredAndSortedAlerts ha).2
  · rintro rfl a ha
    exact alertPassesFilter_resolved (mem_filteredAndSortedAlerts ha).2
  · intro hs a ha
    exact alertPassesFilter_search hs (mem_filteredAndSortedAlerts ha).2

/-- An unresolved sample alert. -/
def sampleActiveAlert : Alert :=
  { id := 1, message := "low battery", alert_type := "low_soc",
    severity := "high", resolved := false, timestamp := 5 }

/-- C10 witness: the active filter evaluated on a concrete list. -/
theorem filteredAndSortedAlerts_sound_witness :
    ("active" : String) = "active" ∧ sampleActiveAlert.resolved = false :=
  ⟨rfl,
   (filteredAndSortedAlerts_sound [sampleActiveAlert] "active" "" "newest").2.1
     rfl sampleActiveAlert
     (by unfold filteredAndSortedAlerts
         rw [List.mem_mergeSort]
         decide)⟩
